import Mathlib

/-!
Verification of the transaction-construction and PDA core of the
`solana_unity` bridge (src/transaction.rs, src/instruction.rs, src/pda.rs,
src/account.rs), as a shallow embedding.

Conventions of the embedding:
* Rust byte slices / `Vec<u8>` become `List Nat` whose entries are bytes.
* `Pubkey` and `Hash` are 32-byte `List Nat`; `Signature` 64-byte `List Nat`.
* Fallible Rust functions return `Except SolanaUnityError _`; a Rust panic
  (such as `Pubkey::find_program_address`'s `.expect`, or `Message::new`'s
  internal `.expect`/`.unwrap`) is modelled as `Option.none` wrapped around
  the normal result.
* The cryptographic primitives that the spec declares black boxes (SHA-256,
  the ed25519 curve-membership test, ed25519 key derivation, signing) are
  parameters of the definitions that use them.
* The format-string context interpolated into Rust error messages is
  dropped; each message keeps its distinguishing literal prefix.
-/

/-! ## Base-58 codec (bs58 crate as used by Pubkey and Hash FromStr/Display) -/

def b58Alphabet : List Char :=
  "123456789ABCDEFGHJKLMNPQRSTUVWXYZabcdefghijkmnopqrstuvwxyz".data

def b58ValAux : List Char → Nat → Char → Option Nat
  | [], _, _ => none
  | a :: rest, i, c => if a = c then some i else b58ValAux rest (i + 1) c

/-- Value of one base-58 digit, `none` on a character outside the alphabet. -/
def b58Val (c : Char) : Option Nat := b58ValAux b58Alphabet 0 c

/-- Numeric value of a base-58 string (leading `'1'` digits contribute 0). -/
def b58StringValue (cs : List Char) : Option Nat :=
  cs.foldl (fun acc c => acc.bind (fun n => (b58Val c).map (fun v => n * 58 + v))) (some 0)

def countLeadingOnes : List Char → Nat
  | [] => 0
  | c :: cs => if c = '1' then countLeadingOnes cs + 1 else 0

/-- Minimal big-endian byte string of `n` (empty for 0); fuel-driven. -/
def beBytesAux : Nat → Nat → List Nat
  | 0, _ => []
  | fuel + 1, n => if n = 0 then [] else beBytesAux fuel (n / 256) ++ [n % 256]

def beBytes (n : Nat) : List Nat := beBytesAux n n

/-- bs58 decoding: one zero byte per leading `'1'`, then the big-endian bytes
of the string's base-58 value; `none` on a character outside the alphabet. -/
def base58DecodeList (cs : List Char) : Option (List Nat) :=
  (b58StringValue cs).map (fun v => List.replicate (countLeadingOnes cs) 0 ++ beBytes v)

/-- `Pubkey::from_str`: rejects strings longer than 44 characters, then
requires the decoded value to be exactly 32 bytes. -/
def pubkeyFromStr (s : String) : Option (List Nat) :=
  if s.length > 44 then none
  else match base58DecodeList s.data with
    | none => none
    | some bs => if bs.length = 32 then some bs else none

/-- `Hash::from_str` has the same 44-character and 32-byte constraints. -/
def hashFromStr (s : String) : Option (List Nat) := pubkeyFromStr s

def bytesBEValue (bs : List Nat) : Nat := bs.foldl (fun acc b => acc * 256 + b) 0

def countLeadingZeroBytes : List Nat → Nat
  | [] => 0
  | b :: bs => if b = 0 then countLeadingZeroBytes bs + 1 else 0

/-- Minimal base-58 digit string of `n` (empty for 0); fuel-driven. -/
def natToB58Aux : Nat → Nat → List Char
  | 0, _ => []
  | fuel + 1, n => if n = 0 then [] else natToB58Aux fuel (n / 58) ++ [b58Alphabet.getD (n % 58) '1']

/-- bs58 encoding, used by `Pubkey::to_string` / `Hash::to_string`. -/
def base58Encode (bs : List Nat) : String :=
  ⟨List.replicate (countLeadingZeroBytes bs) '1' ++ natToB58Aux (bytesBEValue bs) (bytesBEValue bs)⟩

/-! ## Little-endian integers -/

/-- `u64::to_le_bytes` and the u32 enum tags: `k` little-endian bytes of `n`. -/
def leBytes : Nat → Nat → List Nat
  | 0, _ => []
  | k + 1, n => n % 256 :: leBytes k (n / 256)

def fromLeBytes : List Nat → Nat
  | [] => 0
  | b :: bs => b + 256 * fromLeBytes bs

/-! ## Error enum (src/error.rs) -/

inductive SolanaUnityError where
  | rpcError (msg : String)
  | transactionError (msg : String)
  | serializationError (msg : String)
  | walletError (msg : String)
  | invalidInput (msg : String)
  | ffiError (msg : String)
deriving DecidableEq

deriving instance DecidableEq for Except

/-! ## Instructions (solana-sdk data model) -/

structure AccountMeta where
  pubkey : List Nat
  is_signer : Bool
  is_writable : Bool
deriving DecidableEq

structure Instruction where
  program_id : List Nat
  accounts : List AccountMeta
  data : List Nat
deriving DecidableEq

/-- The system program id, `11111111111111111111111111111111`: 32 zero bytes. -/
def systemProgramId : List Nat := List.replicate 32 0

/-- `solana_sdk::system_instruction::transfer`: from is signer+writable, to is
writable; data is the bincode of `SystemInstruction::Transfer` (u32 variant
tag 2, little-endian, then the u64 lamports). -/
def system_transfer (fromPubkey toPubkey : List Nat) (lamports : Nat) : Instruction :=
  { program_id := systemProgramId
    accounts := [⟨fromPubkey, true, true⟩, ⟨toPubkey, false, true⟩]
    data := leBytes 4 2 ++ leBytes 8 lamports }

/-! ## InstructionBuilder and TokenInstructions (src/instruction.rs) -/

structure InstructionBuilder where
  program_id : String
  accounts : List (String × Bool × Bool)
  data : List Nat
deriving DecidableEq

def InstructionBuilder.new (programId : String) : InstructionBuilder :=
  ⟨programId, [], []⟩

def InstructionBuilder.add_account (b : InstructionBuilder) (pubkey : String)
    (isSigner isWritable : Bool) : InstructionBuilder :=
  { b with accounts := b.accounts ++ [(pubkey, isSigner, isWritable)] }

def InstructionBuilder.set_data (b : InstructionBuilder) (d : List Nat) : InstructionBuilder :=
  { b with data := d }

def parseAccountList : List (String × Bool × Bool) → Except SolanaUnityError (List AccountMeta)
  | [] => .ok []
  | (pk, isSigner, isWritable) :: rest =>
    match pubkeyFromStr pk with
    | none => .error (.invalidInput "Invalid account pubkey")
    | some p =>
      match parseAccountList rest with
      | .error e => .error e
      | .ok tail => .ok (⟨p, isSigner, isWritable⟩ :: tail)

def InstructionBuilder.build (b : InstructionBuilder) : Except SolanaUnityError Instruction :=
  match pubkeyFromStr b.program_id with
  | none => .error (.invalidInput "Invalid program ID")
  | some pid =>
    match parseAccountList b.accounts with
    | .error e => .error e
    | .ok metas => .ok { program_id := pid, accounts := metas, data := b.data }

def TOKEN_PROGRAM_ID : String := "TokenkegQfeZyiNwAJbNbGKPFXCWuBvf9Ss623VQ5DA"

/-- The parsed 32-byte value of the fixed SPL token program id. -/
def tokenProgramKey : List Nat := (pubkeyFromStr TOKEN_PROGRAM_ID).getD []

/-- `TokenInstructions::transfer` (src/instruction.rs lines 87-105). -/
def TokenInstructions.transfer (source destination owner : String) (amount : Nat) :
    Except SolanaUnityError Instruction :=
  InstructionBuilder.build
    (InstructionBuilder.set_data
      (InstructionBuilder.add_account
        (InstructionBuilder.add_account
          (InstructionBuilder.add_account
            (InstructionBuilder.new TOKEN_PROGRAM_ID) source false true)
          destination false true)
        owner true false)
      (3 :: leBytes 8 amount))

/-! ## Message compilation (solana-sdk `Message::new` / `CompiledKeys`) -/

structure MessageHeader where
  num_required_signatures : Nat
  num_readonly_signed_accounts : Nat
  num_readonly_unsigned_accounts : Nat
deriving DecidableEq

structure CompiledInstruction where
  program_id_index : Nat
  accounts : List Nat
  data : List Nat
deriving DecidableEq

structure Message where
  header : MessageHeader
  account_keys : List (List Nat)
  recent_blockhash : List Nat
  instructions : List CompiledInstruction
deriving DecidableEq

structure SolanaTransaction where
  signatures : List (List Nat)
  message : Message
deriving DecidableEq

/-- `Hash::default()`: the all-zero 32-byte hash. -/
def hashDefault : List Nat := List.replicate 32 0

/-- `Signature::default()`: 64 zero bytes, the "unsigned" sentinel. -/
def defaultSignature : List Nat := List.replicate 64 0

/-- Strict lexicographic order on byte strings: the `Ord` used by the
`BTreeMap<Pubkey, CompiledKeyMeta>` in `CompiledKeys::compile`. -/
def listLexLt : List Nat → List Nat → Bool
  | [], [] => false
  | [], _ :: _ => true
  | _ :: _, [] => false
  | x :: xs, y :: ys => if x < y then true else if y < x then false else listLexLt xs ys

structure CompiledKeyMeta where
  is_signer : Bool
  is_writable : Bool
  is_invoked : Bool
deriving DecidableEq

def ckDefault : CompiledKeyMeta := ⟨false, false, false⟩

/-- `key_meta_map.entry(k).or_default()` followed by a mutation `f`, on the
key-sorted association list that models the `BTreeMap`. -/
def mapUpsert (k : List Nat) (f : CompiledKeyMeta → CompiledKeyMeta) :
    List (List Nat × CompiledKeyMeta) → List (List Nat × CompiledKeyMeta)
  | [] => [(k, f ckDefault)]
  | (k2, m) :: rest =>
    if k = k2 then (k2, f m) :: rest
    else if listLexLt k k2 then (k, f ckDefault) :: (k2, m) :: rest
    else (k2, m) :: mapUpsert k f rest

def mapRemove (k : List Nat) (mp : List (List Nat × CompiledKeyMeta)) :
    List (List Nat × CompiledKeyMeta) :=
  mp.filter (fun e => !(e.1 == k))

def compileKeysOneInstruction (mp : List (List Nat × CompiledKeyMeta)) (ix : Instruction) :
    List (List Nat × CompiledKeyMeta) :=
  let mp1 := mapUpsert ix.program_id (fun m => { m with is_invoked := true }) mp
  ix.accounts.foldl
    (fun acc am =>
      mapUpsert am.pubkey
        (fun m => { m with
          is_signer := m.is_signer || am.is_signer
          is_writable := m.is_writable || am.is_writable }) acc)
    mp1

/-- `CompiledKeys::compile`: accumulate the or-ed flags of every account of
every instruction, mark invoked programs, then force the fee payer to be a
writable signer. -/
def compileKeys (instructions : List Instruction) (payer : Option (List Nat)) :
    List (List Nat × CompiledKeyMeta) :=
  let mp := instructions.foldl compileKeysOneInstruction []
  match payer with
  | some p => mapUpsert p (fun m => { m with is_signer := true, is_writable := true }) mp
  | none => mp

/-- `CompiledKeys::try_into_message_components`: payer first, then writable
signers, readonly signers, writable non-signers, readonly non-signers, each
group in key order, with the three header counts required to fit in a `u8`
(`none` models the failure that `Message::new` turns into a panic). -/
def tryIntoMessageComponents (payer : Option (List Nat))
    (mp : List (List Nat × CompiledKeyMeta)) :
    Option (MessageHeader × List (List Nat)) :=
  let mp2 := match payer with
    | some p => mapRemove p mp
    | none => mp
  let wS := payer.toList ++ (mp2.filter (fun e => e.2.is_signer && e.2.is_writable)).map (·.1)
  let rS := (mp2.filter (fun e => e.2.is_signer && !e.2.is_writable)).map (·.1)
  let wN := (mp2.filter (fun e => !e.2.is_signer && e.2.is_writable)).map (·.1)
  let rN := (mp2.filter (fun e => !e.2.is_signer && !e.2.is_writable)).map (·.1)
  if wS.length + rS.length ≤ 255 && rS.length ≤ 255 && rN.length ≤ 255 then
    some (⟨wS.length + rS.length, rS.length, rN.length⟩, wS ++ rS ++ wN ++ rN)
  else none

def keyPosition : List (List Nat) → List Nat → Option Nat
  | [], _ => none
  | k :: rest, target => if k = target then some 0 else (keyPosition rest target).map (· + 1)

/-- `Message::compile_instruction`: rewrite one instruction against the
account table (the `unwrap` on a missing key is the `none` case). -/
def compileInstructionAgainst (keys : List (List Nat)) (ix : Instruction) :
    Option CompiledInstruction := do
  let pidIndex ← keyPosition keys ix.program_id
  let accIndices ← ix.accounts.mapM (fun am => keyPosition keys am.pubkey)
  pure ⟨pidIndex, accIndices, ix.data⟩

/-- `Message::new_with_blockhash` (`Message::new` passes `Hash::default()` as
`blockhash`): compile the key table and rewrite the instructions. `none`
models the panics inside `Message::new`. -/
def messageNew (instructions : List Instruction) (payer : Option (List Nat))
    (blockhash : List Nat) : Option Message := do
  let mp := compileKeys instructions payer
  let (header, keys) ← tryIntoMessageComponents payer mp
  let cixs ← instructions.mapM (compileInstructionAgainst keys)
  pure { header := header, account_keys := keys, recent_blockhash := blockhash,
         instructions := cixs }

/-- `Transaction::new_unsigned`: one default (all-zero) signature slot per
required signer. -/
def transactionNewUnsigned (m : Message) : SolanaTransaction :=
  { signatures := List.replicate m.header.num_required_signatures defaultSignature
    message := m }

/-! ## Wire encoding (bincode with solana short_vec, as produced by
`bincode::serialize(&Transaction)` and consumed by `bincode::deserialize`) -/

/-- Compact-u16 (`ShortU16`) encoding: little-endian base-128 varint, at most
three bytes for values below 2^16. -/
def encodeShortU16 (n : Nat) : List Nat :=
  if n < 128 then [n]
  else if n < 16384 then [n % 128 + 128, n / 128]
  else [n % 128 + 128, (n / 128) % 128 + 128, n / 16384]

/-- Compact-u16 decoding, with solana's strictness: a zero continuation digit
after the first byte is rejected as an alias, and the third byte must be a
final digit in 1..3 so the value fits in a u16. -/
def decodeShortU16 : List Nat → Option (Nat × List Nat)
  | [] => none
  | b0 :: r0 =>
    if b0 < 128 then some (b0, r0)
    else match r0 with
      | [] => none
      | b1 :: r1 =>
        if b1 = 0 then none
        else if b1 < 128 then some ((b0 - 128) + 128 * b1, r1)
        else match r1 with
          | [] => none
          | b2 :: r2 =>
            if b2 = 0 then none
            else if b2 < 4 then some ((b0 - 128) + 128 * (b1 - 128) + 16384 * b2, r2)
            else none

def serCompiledInstruction (ix : CompiledInstruction) : List Nat :=
  ix.program_id_index ::
    (encodeShortU16 ix.accounts.length ++ ix.accounts ++
      (encodeShortU16 ix.data.length ++ ix.data))

def serMessageBytes (m : Message) : List Nat :=
  m.header.num_required_signatures :: m.header.num_readonly_signed_accounts ::
    m.header.num_readonly_unsigned_accounts ::
    (encodeShortU16 m.account_keys.length ++ m.account_keys.flatten ++
      (m.recent_blockhash ++
        (encodeShortU16 m.instructions.length ++
          (m.instructions.map serCompiledInstruction).flatten)))

def serTransactionBytes (t : SolanaTransaction) : List Nat :=
  encodeShortU16 t.signatures.length ++ t.signatures.flatten ++ serMessageBytes t.message

/-- The short-vec length prefixes must fit in a `u16`, or bincode refuses to
serialize (the `try_into` inside `short_vec::serialize`). -/
def lengthsOkB (t : SolanaTransaction) : Bool :=
  decide (t.signatures.length < 65536) &&
  decide (t.message.account_keys.length < 65536) &&
  decide (t.message.instructions.length < 65536) &&
  t.message.instructions.all
    (fun ix => decide (ix.accounts.length < 65536) && decide (ix.data.length < 65536))

/-- `bincode::serialize(&Transaction)`: `none` on a length overflow. -/
def bincodeSerializeTx (t : SolanaTransaction) : Option (List Nat) :=
  if lengthsOkB t then some (serTransactionBytes t) else none

def parseU8 : List Nat → Option (Nat × List Nat)
  | [] => none
  | b :: r => some (b, r)

def parseFixed (k : Nat) (bs : List Nat) : Option (List Nat × List Nat) :=
  if k ≤ bs.length then some (bs.take k, bs.drop k) else none

def parseN (p : List Nat → Option (α × List Nat)) : Nat → List Nat → Option (List α × List Nat)
  | 0, bs => some ([], bs)
  | n + 1, bs =>
    match p bs with
    | none => none
    | some (a, bs2) =>
      match parseN p n bs2 with
      | none => none
      | some (xs, bs3) => some (a :: xs, bs3)

def parseCompiledInstruction (bs : List Nat) : Option (CompiledInstruction × List Nat) := do
  let (pidIndex, r1) ← parseU8 bs
  let (nAcc, r2) ← decodeShortU16 r1
  let (accs, r3) ← parseFixed nAcc r2
  let (nData, r4) ← decodeShortU16 r3
  let (dat, r5) ← parseFixed nData r4
  pure (⟨pidIndex, accs, dat⟩, r5)

def parseMessageBytes (bs : List Nat) : Option (Message × List Nat) := do
  let (h1, r1) ← parseU8 bs
  let (h2, r2) ← parseU8 r1
  let (h3, r3) ← parseU8 r2
  let (nKeys, r4) ← decodeShortU16 r3
  let (keys, r5) ← parseN (parseFixed 32) nKeys r4
  let (blockhash, r6) ← parseFixed 32 r5
  let (nIxs, r7) ← decodeShortU16 r6
  let (ixs, r8) ← parseN parseCompiledInstruction nIxs r7
  pure (⟨⟨h1, h2, h3⟩, keys, blockhash, ixs⟩, r8)

/-- `bincode::deserialize::<Transaction>` (trailing bytes are not consumed). -/
def parseTransactionBytes (bs : List Nat) : Option (SolanaTransaction × List Nat) := do
  let (nSigs, r1) ← decodeShortU16 bs
  let (sigs, r2) ← parseN (parseFixed 64) nSigs r1
  let (msg, r3) ← parseMessageBytes r2
  pure (⟨sigs, msg⟩, r3)

/-! ## Keypairs and signing (ed25519-dalek as used through solana-sdk).

`pointValid` is the black-box test that 32 bytes decompress to a curve point
(`PublicKey::from_bytes`); `edSign secret publicKey msg` is the black-box
ed25519 signature; `edDerive secret` is the black-box public-key derivation
used by `Keypair::new`. -/

structure Keypair where
  secret : List Nat
  publicKey : List Nat
deriving DecidableEq

/-- `ed25519_dalek::Keypair::from_bytes`: exactly 64 bytes, the second half a
valid curve point. The buffer is split as stored; no check that the public
half matches the secret half. -/
def keypairFromBytes (pointValid : List Nat → Bool) (bytes : List Nat) : Option Keypair :=
  if bytes.length = 64 then
    if pointValid (bytes.drop 32) then some ⟨bytes.take 32, bytes.drop 32⟩ else none
  else none

inductive SignerError where
  | invalidAccountIndex
  | keypairPubkeyMismatch
  | notEnoughSigners
deriving DecidableEq

def keyPositionIn (keys : List (List Nat)) (target : List Nat) : Option Nat :=
  keyPosition keys target

/-- `Transaction::get_signing_keypair_positions`: each pubkey's position among
the first `num_required_signatures` account keys. -/
def getSigningKeypairPositions (tx : SolanaTransaction) (pubkeys : List (List Nat)) :
    Except SignerError (List (Option Nat)) :=
  if tx.message.account_keys.length < tx.message.header.num_required_signatures then
    .error .invalidAccountIndex
  else
    let signedKeys := tx.message.account_keys.take tx.message.header.num_required_signatures
    .ok (pubkeys.map (fun pk => keyPositionIn signedKeys pk))

/-- `Transaction::try_partial_sign`: find slots, reject an unknown signer,
reset signatures when the blockhash changes, then sign the serialized message
with every keypair and store each signature in its slot. -/
def tryPartialSign (edSign : List Nat → List Nat → List Nat → List Nat)
    (keypairs : List Keypair) (tx : SolanaTransaction) (recentBlockhash : List Nat) :
    Except SignerError SolanaTransaction :=
  match getSigningKeypairPositions tx (keypairs.map (·.publicKey)) with
  | .error e => .error e
  | .ok positions =>
    if positions.any (·.isNone) then .error .keypairPubkeyMismatch
    else
      let positions := positions.map (·.getD 0)
      let tx1 :=
        if recentBlockhash = tx.message.recent_blockhash then tx
        else { tx with
          message := { tx.message with recent_blockhash := recentBlockhash }
          signatures := List.replicate tx.signatures.length defaultSignature }
      let msgData := serMessageBytes tx1.message
      let sigs := keypairs.map (fun kp => edSign kp.secret kp.publicKey msgData)
      .ok { tx1 with
        signatures := (positions.zip sigs).foldl (fun acc ps => acc.set ps.1 ps.2) tx1.signatures }

/-- `Transaction::is_signed`: every slot differs from the default signature. -/
def transactionIsSigned (tx : SolanaTransaction) : Bool :=
  tx.signatures.all (fun s => !(s == defaultSignature))

/-- `Transaction::try_sign`: partial sign, then demand full signedness. -/
def trySign (edSign : List Nat → List Nat → List Nat → List Nat)
    (keypairs : List Keypair) (tx : SolanaTransaction) (recentBlockhash : List Nat) :
    Except SignerError SolanaTransaction :=
  match tryPartialSign edSign keypairs tx recentBlockhash with
  | .error e => .error e
  | .ok tx2 => if transactionIsSigned tx2 then .ok tx2 else .error .notEnoughSigners

/-! ## The Transaction builder (src/transaction.rs `Transaction`) -/

structure TransactionBuilder where
  tx : Option SolanaTransaction
deriving DecidableEq

def TransactionBuilder.new : TransactionBuilder := ⟨none⟩

/-- `Transaction::build_transfer` (lines 22-45). The parsed blockhash is bound
and never used, exactly as in the source (line 37): `Message::new` puts
`Hash::default()` in the message. -/
def build_transfer (b : TransactionBuilder) (fromPubkey toPubkey : String)
    (lamports : Nat) (recentBlockhash : String) :
    Option (Except SolanaUnityError TransactionBuilder) :=
  match pubkeyFromStr fromPubkey with
  | none => some (.error (.invalidInput "Invalid from pubkey"))
  | some fromPk =>
    match pubkeyFromStr toPubkey with
    | none => some (.error (.invalidInput "Invalid to pubkey"))
    | some toPk =>
      let instruction := system_transfer fromPk toPk lamports
      match hashFromStr recentBlockhash with
      | none => some (.error (.invalidInput "Invalid blockhash"))
      | some _blockhash =>
        match messageNew [instruction] (some fromPk) hashDefault with
        | none => none
        | some message => some (.ok { b with tx := some (transactionNewUnsigned message) })

/-- `Transaction::build_program_call` (lines 95-136); the parsed blockhash is
again unused (line 128). -/
def build_program_call (b : TransactionBuilder) (programId : String)
    (accounts : List (String × Bool × Bool)) (data : List Nat)
    (recentBlockhash feePayer : String) :
    Option (Except SolanaUnityError TransactionBuilder) :=
  match pubkeyFromStr programId with
  | none => some (.error (.invalidInput "Invalid program id"))
  | some program =>
    match pubkeyFromStr feePayer with
    | none => some (.error (.invalidInput "Invalid fee payer"))
    | some feePayerPubkey =>
      match parseAccountList accounts with
      | .error e => some (.error e)
      | .ok accountMetas =>
        let instruction : Instruction :=
          { program_id := program, accounts := accountMetas, data := data }
        match hashFromStr recentBlockhash with
        | none => some (.error (.invalidInput "Invalid blockhash"))
        | some _blockhash =>
          match messageNew [instruction] (some feePayerPubkey) hashDefault with
          | none => none
          | some message => some (.ok { b with tx := some (transactionNewUnsigned message) })

/-- `Transaction::build_token_transfer` (lines 47-93): an empty token program
string falls back to `TOKEN_PROGRAM_ID`; source/destination/owner are parsed
for validation only, and the call is delegated to `build_program_call` with
the re-rendered program id and `owner` as fee payer. -/
def build_token_transfer (b : TransactionBuilder)
    (tokenProgramId source destination owner : String) (amount : Nat)
    (recentBlockhash : String) :
    Option (Except SolanaUnityError TransactionBuilder) :=
  match (if tokenProgramId.isEmpty then pubkeyFromStr TOKEN_PROGRAM_ID
         else pubkeyFromStr tokenProgramId) with
  | none => some (.error (.invalidInput "Invalid token program"))
  | some tokenProgram =>
    match pubkeyFromStr source with
    | none => some (.error (.invalidInput "Invalid source pubkey"))
    | some _source =>
      match pubkeyFromStr destination with
      | none => some (.error (.invalidInput "Invalid destination pubkey"))
      | some _destination =>
        match pubkeyFromStr owner with
        | none => some (.error (.invalidInput "Invalid owner pubkey"))
        | some _owner =>
          let data := 3 :: leBytes 8 amount
          let accounts := [(source, false, true), (destination, false, true),
            (owner, true, false)]
          build_program_call b (base58Encode tokenProgram) accounts data
            recentBlockhash owner

/-- `Transaction::build_with_instructions` (lines 138-155); the parsed
blockhash is again unused (line 147). -/
def build_with_instructions (b : TransactionBuilder) (instructions : List Instruction)
    (feePayer recentBlockhash : String) :
    Option (Except SolanaUnityError TransactionBuilder) :=
  match pubkeyFromStr feePayer with
  | none => some (.error (.invalidInput "Invalid fee payer"))
  | some feePayerPubkey =>
    match hashFromStr recentBlockhash with
    | none => some (.error (.invalidInput "Invalid blockhash"))
    | some _blockhash =>
      match messageNew instructions (some feePayerPubkey) hashDefault with
      | none => none
      | some message => some (.ok { b with tx := some (transactionNewUnsigned message) })

/-- `Transaction::sign` (lines 157-179). The second component is the builder
state after the call: the source `take`s `self.tx` before `try_sign`, so a
signing failure leaves `self.tx` empty. -/
def sign (pointValid : List Nat → Bool) (edSign : List Nat → List Nat → List Nat → List Nat)
    (b : TransactionBuilder) (privateKey : List Nat) :
    Except SolanaUnityError Unit × TransactionBuilder :=
  match keypairFromBytes pointValid privateKey with
  | none => (.error (.walletError "Invalid keypair"), b)
  | some keypair =>
    match b.tx with
    | none => (.error (.transactionError "No transaction to sign"), b)
    | some tx =>
      match trySign edSign [keypair] tx tx.message.recent_blockhash with
      | .error _ => (.error (.transactionError "Failed to sign transaction"), ⟨none⟩)
      | .ok tx2 => (.ok (), ⟨some tx2⟩)

def parseKeypairList (pointValid : List Nat → Bool) : List (List Nat) → Option (List Keypair)
  | [] => some []
  | k :: rest =>
    match keypairFromBytes pointValid k with
    | none => none
    | some kp =>
      match parseKeypairList pointValid rest with
      | none => none
      | some kps => some (kp :: kps)

/-- `Transaction::sign_with_keypairs` (lines 181-210): all keys are parsed
before `self.tx` is taken; as in `sign`, a `try_sign` failure leaves
`self.tx` empty. -/
def sign_with_keypairs (pointValid : List Nat → Bool)
    (edSign : List Nat → List Nat → List Nat → List Nat)
    (b : TransactionBuilder) (privateKeys : List (List Nat)) :
    Except SolanaUnityError Unit × TransactionBuilder :=
  match parseKeypairList pointValid privateKeys with
  | none => (.error (.walletError "Invalid keypair"), b)
  | some keypairs =>
    match b.tx with
    | none => (.error (.transactionError "No transaction to sign"), b)
    | some tx =>
      match trySign edSign keypairs tx tx.message.recent_blockhash with
      | .error _ => (.error (.transactionError "Failed to sign transaction"), ⟨none⟩)
      | .ok tx2 => (.ok (), ⟨some tx2⟩)

/-- `Transaction::serialize` (lines 212-220). -/
def serialize (b : TransactionBuilder) : Except SolanaUnityError (List Nat) :=
  match b.tx with
  | none => .error (.transactionError "No transaction to serialize")
  | some tx =>
    match bincodeSerializeTx tx with
    | none => .error (.serializationError "Failed to serialize transaction")
    | some bytes => .ok bytes

/-- `Transaction::from_serialized` (lines 222-232): replaces the stored
transaction on success. -/
def from_serialized (b : TransactionBuilder) (data : List Nat) :
    Except SolanaUnityError TransactionBuilder :=
  match parseTransactionBytes data with
  | none => .error (.serializationError "Failed to deserialize transaction")
  | some (tx, _rest) => .ok { b with tx := some tx }

/-- `Transaction::get_fee_estimate` (lines 240-247): the length of the
signature vector (filled or not) times 5000. -/
def get_fee_estimate (b : TransactionBuilder) : Except SolanaUnityError Nat :=
  match b.tx with
  | none => .error (.transactionError "No transaction available")
  | some tx => .ok (tx.signatures.length * 5000)

/-! ## PDA engine (src/pda.rs over solana-sdk `Pubkey`) -/

inductive PubkeyError where
  | maxSeedLengthExceeded
  | invalidSeeds
deriving DecidableEq

/-- The domain separation tag `PDA_MARKER = b"ProgramDerivedAddress"`. -/
def pdaMarker : List Nat := "ProgramDerivedAddress".data.map Char.toNat

/-- `Pubkey::create_program_address`: at most 16 seeds of at most 32 bytes
each; the candidate is `sha256(seeds ‖ program_id ‖ PDA_MARKER)`, rejected
when it is a curve point. -/
def createProgramAddressCore (sha : List Nat → List Nat) (isOnCurve : List Nat → Bool)
    (seeds : List (List Nat)) (program : List Nat) : Except PubkeyError (List Nat) :=
  if seeds.length > 16 then .error .maxSeedLengthExceeded
  else if seeds.any (fun s => s.length > 32) then .error .maxSeedLengthExceeded
  else
    let candidate := sha (seeds.flatten ++ program ++ pdaMarker)
    if isOnCurve candidate then .error .invalidSeeds else .ok candidate

/-- One step per bump of `Pubkey::try_find_program_address`: an on-curve
candidate (`InvalidSeeds`) moves to the next bump; any other error breaks the
loop, which then yields `none`. -/
def tryFindProgramAddressAux (sha : List Nat → List Nat) (isOnCurve : List Nat → Bool)
    (seeds : List (List Nat)) (program : List Nat) : Nat → Nat → Option (List Nat × Nat)
  | 0, _ => none
  | fuel + 1, bump =>
    match createProgramAddressCore sha isOnCurve (seeds ++ [[bump]]) program with
    | .ok addr => some (addr, bump)
    | .error .invalidSeeds => tryFindProgramAddressAux sha isOnCurve seeds program fuel (bump - 1)
    | .error _ => none

/-- `Pubkey::try_find_program_address`: 255 iterations, bump 255 down to 1. -/
def tryFindProgramAddress (sha : List Nat → List Nat) (isOnCurve : List Nat → Bool)
    (seeds : List (List Nat)) (program : List Nat) : Option (List Nat × Nat) :=
  tryFindProgramAddressAux sha isOnCurve seeds program 255 255

/-- `ProgramDerivedAddress::find_program_address` (src/pda.rs lines 9-19).
`Pubkey::find_program_address` unwraps the search with `.expect`, so a failed
search is a panic: the outer `none`. -/
def find_program_address (sha : List Nat → List Nat) (isOnCurve : List Nat → Bool)
    (seeds : List (List Nat)) (programId : String) :
    Option (Except SolanaUnityError (String × Nat)) :=
  match pubkeyFromStr programId with
  | none => some (.error (.invalidInput "Invalid program ID"))
  | some programPubkey =>
    match tryFindProgramAddress sha isOnCurve seeds programPubkey with
    | none => none
    | some (address, bump) => some (.ok (base58Encode address, bump))

/-- `ProgramDerivedAddress::create_program_address` (src/pda.rs lines 22-34):
every `Pubkey` error is mapped onto `InvalidInput`. -/
def create_program_address (sha : List Nat → List Nat) (isOnCurve : List Nat → Bool)
    (seeds : List (List Nat)) (programId : String) : Except SolanaUnityError String :=
  match pubkeyFromStr programId with
  | none => .error (.invalidInput "Invalid program ID")
  | some programPubkey =>
    match createProgramAddressCore sha isOnCurve seeds programPubkey with
    | .error _ => .error (.invalidInput "Failed to create program address")
    | .ok address => .ok (base58Encode address)

/-! ## Account wrapper (src/account.rs) -/

structure Account where
  pubkey : Option (List Nat)
  keypair : Option Keypair
deriving DecidableEq

/-- `Account::from_private_key` (lines 30-40): parse the 64-byte buffer with
`Keypair::from_bytes` and store `keypair.pubkey()` — the public half of the
buffer — as the address. -/
def Account.from_private_key (pointValid : List Nat → Bool) (privateKey : List Nat) :
    Except SolanaUnityError Account :=
  match keypairFromBytes pointValid privateKey with
  | none => .error (.walletError "Invalid keypair")
  | some kp => .ok { pubkey := some kp.publicKey, keypair := some kp }

/-- `Account::generate` (lines 77-85): `Keypair::new` draws a fresh 32-byte
secret (the `secret` argument here) and derives its public key. -/
def Account.generate (edDerive : List Nat → List Nat) (secret : List Nat) : Account :=
  let kp : Keypair := ⟨secret, edDerive secret⟩
  { pubkey := some kp.publicKey, keypair := some kp }

/-- `Account::get_pubkey` (lines 87-92). -/
def Account.get_pubkey (a : Account) : Except SolanaUnityError String :=
  match a.pubkey with
  | none => .error (.walletError "No public key available")
  | some pk => .ok (base58Encode pk)

/-- `Account::has_private_key` (lines 101-103). -/
def Account.has_private_key (a : Account) : Bool := a.keypair.isSome

/-! ## Shared concrete sample values and auxiliary definitions -/

set_option maxRecDepth 100000

/-- A 32-byte address rendering to base-58 `1^31 2`: bytes `0^31 ‖ 1`. -/
def sampleFromStr : String := "11111111111111111111111111111112"

/-- A 32-byte address rendering to base-58 `1^31 3`: bytes `0^31 ‖ 2`. -/
def sampleToStr : String := "11111111111111111111111111111113"

/-- The all-zero 32-byte value in base-58, also the system program id. -/
def zeroKeyStr : String := "11111111111111111111111111111111"

/-- A builder that has run `build_transfer` successfully: a transfer of 1000
lamports from `sampleFromStr` to `sampleToStr`. -/
def sampleBuiltBuilder : TransactionBuilder :=
  match build_transfer ⟨none⟩ sampleFromStr sampleToStr 1000 zeroKeyStr with
  | some (.ok b) => b
  | _ => ⟨none⟩

/-- The transaction held by `sampleBuiltBuilder`. -/
def sampleTransaction : SolanaTransaction :=
  (sampleBuiltBuilder.tx).getD ⟨[], ⟨⟨0, 0, 0⟩, [], [], []⟩⟩

/-- A 64-byte keypair buffer whose public half (32 nines) is none of the
required signers of `sampleBuiltBuilder`. -/
def mismatchKeypairBytes : List Nat := List.replicate 32 0 ++ List.replicate 32 9

/-- Transactions representable by the Rust data type on the wire: 64-byte
signatures, 32-byte keys and blockhash, and short-vec lengths below 2^16. -/
def WfTransaction (t : SolanaTransaction) : Prop :=
  t.signatures.length < 65536 ∧ (∀ s ∈ t.signatures, s.length = 64) ∧
  t.message.account_keys.length < 65536 ∧ (∀ k ∈ t.message.account_keys, k.length = 32) ∧
  t.message.recent_blockhash.length = 32 ∧
  t.message.instructions.length < 65536 ∧
  (∀ ix ∈ t.message.instructions, ix.accounts.length < 65536 ∧ ix.data.length < 65536)

instance (t : SolanaTransaction) : Decidable (WfTransaction t) := by
  unfold WfTransaction; infer_instance

/-- The number of signature slots of a builder's transaction that differ from
the unsigned sentinel. -/
def countFilledSignatures (b : TransactionBuilder) : Nat :=
  match b.tx with
  | none => 0
  | some t => (t.signatures.filter (fun s => !(s == defaultSignature))).length

/-- The recent blockhash stored in the message produced by a `build_*` call. -/
def builtRecentBlockhash (r : Option (Except SolanaUnityError TransactionBuilder)) :
    Option (List Nat) :=
  match r with
  | some (.ok b) =>
    match b.tx with
    | some t => some t.message.recent_blockhash
    | none => none
  | _ => none

/-- The account produced by `Account::from_private_key` on the all-zero
64-byte buffer, under a derivation oracle mapping everything to zero. -/
def zeroAccount : Account :=
  ⟨some (List.replicate 32 0), some ⟨List.replicate 32 0, List.replicate 32 0⟩⟩

/-! ## Codec lemmas -/

theorem leBytes_length (k n : Nat) : (leBytes k n).length = k := by
  induction k generalizing n with
  | zero => rfl
  | succ k ih => simp [leBytes, ih]

theorem fromLeBytes_leBytes (k n : Nat) (h : n < 2 ^ (8 * k)) :
    fromLeBytes (leBytes k n) = n := by
  induction k generalizing n with
  | zero => simp at h; simp [leBytes, fromLeBytes, h]
  | succ k ih =>
    have hp : 2 ^ (8 * (k + 1)) = 2 ^ (8 * k) * 256 := by
      rw [Nat.mul_succ, pow_add]; norm_num
    have hlt : n / 256 < 2 ^ (8 * k) := by
      rw [Nat.div_lt_iff_lt_mul (by norm_num : (0:Nat) < 256)]
      omega
    simp [leBytes, fromLeBytes, ih _ hlt]
    omega

theorem decodeShortU16_encodeShortU16 (n : Nat) (rest : List Nat) (h : n < 65536) :
    decodeShortU16 (encodeShortU16 n ++ rest) = some (n, rest) := by
  by_cases h1 : n < 128
  · simp [encodeShortU16, decodeShortU16, h1]
  · by_cases h2 : n < 16384
    · have hb0 : ¬ (n % 128 + 128 < 128) := by omega
      have hb1ne : ¬ (n / 128 = 0) := by omega
      have hb1lt : n / 128 < 128 := by omega
      simp [encodeShortU16, decodeShortU16, h1, h2, hb0, hb1ne, hb1lt]
      omega
    · have hb0 : ¬ (n % 128 + 128 < 128) := by omega
      have hb1ne : ¬ ((n / 128) % 128 + 128 = 0) := by omega
      have hb1nlt : ¬ ((n / 128) % 128 + 128 < 128) := by omega
      have hb2ne : ¬ (n / 16384 = 0) := by omega
      have hb2lt : n / 16384 < 4 := by omega
      simp [encodeShortU16, decodeShortU16, h1, h2, hb0, hb1ne, hb1nlt, hb2ne, hb2lt]
      omega

theorem parseFixed_append (xs rest : List Nat) :
    parseFixed xs.length (xs ++ rest) = some (xs, rest) := by
  simp [parseFixed]

theorem parseN_parseFixed (k : Nat) (xs : List (List Nat)) (rest : List Nat)
    (h : ∀ x ∈ xs, x.length = k) :
    parseN (parseFixed k) xs.length (xs.flatten ++ rest) = some (xs, rest) := by
  induction xs generalizing rest with
  | nil => simp [parseN]
  | cons x xs ih =>
    have hx : parseFixed k (x ++ (xs.flatten ++ rest)) = some (x, xs.flatten ++ rest) := by
      rw [← h x (by simp)]; exact parseFixed_append _ _
    simp only [List.flatten_cons, List.length_cons, List.append_assoc]
    simp [parseN, hx, ih rest (fun y hy => h y (by simp [hy]))]

theorem parseN_append {α : Type} (p : List Nat → Option (α × List Nat)) (enc : α → List Nat)
    (xs : List α) (rest : List Nat)
    (h : ∀ x ∈ xs, ∀ r : List Nat, p (enc x ++ r) = some (x, r)) :
    parseN p xs.length ((xs.map enc).flatten ++ rest) = some (xs, rest) := by
  induction xs generalizing rest with
  | nil => simp [parseN]
  | cons x xs ih =>
    have hx := h x (by simp) ((xs.map enc).flatten ++ rest)
    simp only [List.map_cons, List.flatten_cons, List.length_cons, List.append_assoc]
    simp [parseN, hx, ih rest (fun y hy r => h y (by simp [hy]) r)]

theorem parseCompiledInstruction_ser (ix : CompiledInstruction) (rest : List Nat)
    (ha : ix.accounts.length < 65536) (hd : ix.data.length < 65536) :
    parseCompiledInstruction (serCompiledInstruction ix ++ rest) = some (ix, rest) := by
  simp only [serCompiledInstruction, List.cons_append, List.append_assoc]
  simp only [parseCompiledInstruction, parseU8, Option.bind_eq_bind, Option.some_bind]
  rw [decodeShortU16_encodeShortU16 _ _ ha]
  simp only [Option.some_bind]
  rw [parseFixed_append]
  simp only [Option.some_bind]
  rw [decodeShortU16_encodeShortU16 _ _ hd]
  simp only [Option.some_bind]
  rw [parseFixed_append]
  rfl

theorem parseMessageBytes_ser (m : Message) (rest : List Nat)
    (hk : m.account_keys.length < 65536) (hkl : ∀ k ∈ m.account_keys, k.length = 32)
    (hb : m.recent_blockhash.length = 32)
    (hi : m.instructions.length < 65536)
    (hil : ∀ ix ∈ m.instructions, ix.accounts.length < 65536 ∧ ix.data.length < 65536) :
    parseMessageBytes (serMessageBytes m ++ rest) = some (m, rest) := by
  simp only [serMessageBytes, List.cons_append, List.append_assoc]
  simp only [parseMessageBytes, parseU8, Option.bind_eq_bind, Option.some_bind]
  rw [decodeShortU16_encodeShortU16 _ _ hk]
  simp only [Option.some_bind]
  rw [parseN_parseFixed 32 _ _ hkl]
  simp only [Option.some_bind]
  rw [← hb, parseFixed_append]
  simp only [Option.some_bind]
  rw [decodeShortU16_encodeShortU16 _ _ hi]
  simp only [Option.some_bind]
  rw [parseN_append parseCompiledInstruction serCompiledInstruction _ _
    (fun x hx r => parseCompiledInstruction_ser x r (hil x hx).1 (hil x hx).2)]
  rfl

theorem parseTransactionBytes_ser (t : SolanaTransaction) (rest : List Nat)
    (hwf : WfTransaction t) :
    parseTransactionBytes (serTransactionBytes t ++ rest) = some (t, rest) := by
  obtain ⟨h1, h2, h3, h4, h5, h6, h7⟩ := hwf
  simp only [serTransactionBytes, List.append_assoc]
  simp only [parseTransactionBytes, Option.bind_eq_bind]
  rw [decodeShortU16_encodeShortU16 _ _ h1]
  simp only [Option.some_bind]
  rw [parseN_parseFixed 64 _ _ h2]
  simp only [Option.some_bind]
  rw [parseMessageBytes_ser _ _ h3 h4 h5 h6 h7]
  rfl

theorem lengthsOkB_of_wf (t : SolanaTransaction) (hwf : WfTransaction t) :
    lengthsOkB t = true := by
  obtain ⟨h1, _, h3, _, _, h6, h7⟩ := hwf
  simp [lengthsOkB, List.all_eq_true, h1, h3, h6]
  exact fun ix hx => ⟨(h7 ix hx).1, (h7 ix hx).2⟩

/-! ## Claims -/

/-- C5: for every built or (partially) signed transaction `t` held by a
builder, `serialize` succeeds, and `from_serialized` applied to those bytes
reproduces a builder holding exactly `t` — the same account table,
instruction list, checkpoint, and signature slots. -/
theorem c5_serialize_roundtrip (b : TransactionBuilder) (t : SolanaTransaction)
    (hb : b.tx = some t) (hwf : WfTransaction t) :
    serialize b = .ok (serTransactionBytes t) ∧
    from_serialized b (serTransactionBytes t) = .ok ⟨some t⟩ := by
  constructor
  · simp [serialize, hb, bincodeSerializeTx, lengthsOkB_of_wf t hwf]
  · have hp : parseTransactionBytes (serTransactionBytes t) = some (t, []) := by
      have := parseTransactionBytes_ser t [] hwf
      simpa using this
    simp [from_serialized, hp]

/-- C5 witness: the round trip at the concrete built transfer transaction. -/
theorem c5_witness :
    sampleBuiltBuilder.tx = some sampleTransaction ∧
    WfTransaction sampleTransaction ∧
    serialize sampleBuiltBuilder = .ok (serTransactionBytes sampleTransaction) ∧
    from_serialized sampleBuiltBuilder (serTransactionBytes sampleTransaction) =
      .ok ⟨some sampleTransaction⟩ := by
  refine ⟨by decide, by decide, ?_, ?_⟩
  · exact (c5_serialize_roundtrip sampleBuiltBuilder sampleTransaction (by decide) (by decide)).1
  · exact (c5_serialize_roundtrip sampleBuiltBuilder sampleTransaction (by decide) (by decide)).2

/-- C4 counterexample: on a freshly built (entirely unsigned) transfer the
code returns 5000, although the number of currently-filled (non-default)
signer slots is 0 — the claimed estimate of filled-slots × 5000 would be 0. -/
theorem c4_counterexample :
    get_fee_estimate sampleBuiltBuilder = .ok 5000 ∧
    countFilledSignatures sampleBuiltBuilder = 0 ∧
    get_fee_estimate sampleBuiltBuilder ≠ .ok (countFilledSignatures sampleBuiltBuilder * 5000) :=
  ⟨by decide, by decide, by decide⟩

/-- C4 amended: `get_fee_estimate` multiplies the total number of signature
slots — filled or still holding the unsigned sentinel — by the fixed
per-signature cost 5000. -/
theorem c4_fee_counts_all_slots (b : TransactionBuilder) (t : SolanaTransaction)
    (hb : b.tx = some t) :
    get_fee_estimate b = .ok (t.signatures.length * 5000) := by
  simp [get_fee_estimate, hb]

/-- C4 witness: the amended estimate at the concrete built transfer. -/
theorem c4_witness :
    sampleBuiltBuilder.tx = some sampleTransaction ∧
    get_fee_estimate sampleBuiltBuilder = .ok (sampleTransaction.signatures.length * 5000) :=
  ⟨by decide, c4_fee_counts_all_slots sampleBuiltBuilder sampleTransaction (by decide)⟩

/-- C8: `sign` with a secret of the wrong length fails with `WalletError` and
returns the builder — including any built message and its signature
slots — exactly unchanged (the length check precedes the `take`). -/
theorem c8_wrong_length_secret (pointValid : List Nat → Bool)
    (edSign : List Nat → List Nat → List Nat → List Nat)
    (b : TransactionBuilder) (key : List Nat) (h : key.length ≠ 64) :
    sign pointValid edSign b key = (.error (.walletError "Invalid keypair"), b) := by
  unfold sign keypairFromBytes
  rw [if_neg h]

/-- C8 witness: a 32-byte secret against the concrete built transfer. -/
theorem c8_witness :
    (List.replicate 32 0 : List Nat).length ≠ 64 ∧
    sign (fun _ => true) (fun _ _ _ => List.replicate 64 7) sampleBuiltBuilder
      (List.replicate 32 0) = (.error (.walletError "Invalid keypair"), sampleBuiltBuilder) ∧
    sampleBuiltBuilder.tx ≠ none :=
  ⟨by decide,
    c8_wrong_length_secret (fun _ => true) (fun _ _ _ => List.replicate 64 7)
      sampleBuiltBuilder (List.replicate 32 0) (by decide),
    by decide⟩

/-- C10: `build_token_transfer` with the empty string as token program id is
the very same function of all remaining arguments as with the well-known
token program id passed explicitly. -/
theorem c10_empty_token_program_defaults (b : TransactionBuilder)
    (source destination owner : String) (amount : Nat) (recentBlockhash : String) :
    build_token_transfer b "" source destination owner amount recentBlockhash =
    build_token_transfer b TOKEN_PROGRAM_ID source destination owner amount recentBlockhash := by
  have h1 : "".isEmpty = true := rfl
  have h2 : TOKEN_PROGRAM_ID.isEmpty = false := rfl
  simp only [build_token_transfer, h1, h2, if_true, if_false]
  simp

/-- C1: for every `build_*` call the spec claims the compiled message records
the supplied checkpoint. Evaluated here on a successful `build_transfer` with
the well-formed non-zero checkpoint `1^31 2` (bytes `0^31 ‖ 1`): the message
records the all-zero default hash instead — the parsed blockhash on
src/transaction.rs line 37 is never used, `Message::new` embeds
`Hash::default()`, and `sign` therefore signs message bytes carrying the
zero checkpoint. -/
theorem c1_checkpoint_not_recorded :
    builtRecentBlockhash
      (build_transfer ⟨none⟩ sampleFromStr sampleToStr 1000 sampleFromStr) =
      some (List.replicate 32 0) ∧
    hashFromStr sampleFromStr = some (List.replicate 31 0 ++ [1]) ∧
    (List.replicate 32 0 : List Nat) ≠ List.replicate 31 0 ++ [1] :=
  ⟨by decide, by decide, by decide⟩

/-- C3: evaluated at a failure arising after key parsing: `sign` on the
concrete built transfer with a well-formed 64-byte keypair whose public half
is not a required signer fails with `TransactionError` — and the builder's
previously built transaction is gone (`self.tx` was `take`n on
src/transaction.rs line 168 and never restored on the error path). -/
theorem c3_sign_failure_drops_transaction :
    (sign (fun _ => true) (fun _ _ _ => List.replicate 64 7) sampleBuiltBuilder
      mismatchKeypairBytes).1 = .error (.transactionError "Failed to sign transaction") ∧
    (sign (fun _ => true) (fun _ _ _ => List.replicate 64 7) sampleBuiltBuilder
      mismatchKeypairBytes).2 = ⟨none⟩ ∧
    sampleBuiltBuilder.tx ≠ none :=
  ⟨by decide, by decide, by decide⟩

/-- C2 counterexample: with 17 seeds (each a single zero byte), a parseable
program id, and any oracles (here constant ones), `find_program_address` does
not return an input error: the bump search breaks on `MaxSeedLengthExceeded`
and the `.expect` in `Pubkey::find_program_address` panics (`none`). -/
theorem c2_counterexample :
    find_program_address (fun _ => List.replicate 32 0) (fun _ => false)
      (List.replicate 17 [0]) zeroKeyStr = none := by decide

/-- C2 amended: with 16 or more seeds (the bump is appended as a 17th), or
with any seed longer than 32 bytes, `find_program_address` panics instead of
returning an error, for every hash and curve oracle; an error return occurs
only for an unparseable program id. -/
theorem c2_seed_limit_panics (sha : List Nat → List Nat) (isOnCurve : List Nat → Bool)
    (seeds : List (List Nat)) (programId : String) (pk : List Nat)
    (hp : pubkeyFromStr programId = some pk)
    (hbad : 16 ≤ seeds.length ∨ ∃ s ∈ seeds, 32 < s.length) :
    find_program_address sha isOnCurve seeds programId = none := by
  have hcore : ∀ bump : Nat, createProgramAddressCore sha isOnCurve
      (seeds ++ [[bump]]) pk = .error .maxSeedLengthExceeded := by
    intro bump
    unfold createProgramAddressCore
    rcases hbad with hlen | ⟨s, hs, hsl⟩
    · rw [if_pos (by simp; omega)]
    · by_cases hl : (seeds ++ [[bump]]).length > 16
      · rw [if_pos hl]
      · rw [if_neg hl, if_pos]
        simp only [List.any_eq_true, decide_eq_true_eq]
        exact ⟨s, List.mem_append_left _ hs, hsl⟩
  have hfind : tryFindProgramAddress sha isOnCurve seeds pk = none := by
    unfold tryFindProgramAddress
    rw [show (255 : Nat) = 254 + 1 from rfl]
    simp only [tryFindProgramAddressAux, hcore]
  simp [find_program_address, hp, hfind]

/-- C2 witness: the amended statement at 16 empty seeds and the system
program id, with constant oracles. -/
theorem c2_witness :
    pubkeyFromStr zeroKeyStr = some (List.replicate 32 0) ∧
    16 ≤ (List.replicate 16 ([] : List Nat)).length ∧
    find_program_address (fun _ => List.replicate 32 0) (fun _ => false)
      (List.replicate 16 ([] : List Nat)) zeroKeyStr = none :=
  ⟨by decide, by decide,
    c2_seed_limit_panics (fun _ => List.replicate 32 0) (fun _ => false)
      (List.replicate 16 ([] : List Nat)) zeroKeyStr (List.replicate 32 0)
      (by decide) (Or.inl (by decide))⟩

/-- C6: for all parseable source/destination/owner addresses and any amount
below 2^64, `TokenInstructions::transfer` yields an instruction on the fixed
token program whose payload is the 9 bytes `3 ‖ amount:u64-LE` and whose
accounts are source (writable), destination (writable), owner (signer), in
that order. -/
theorem c6_token_transfer_shape (source destination owner : String) (amount : Nat)
    (ps pd po : List Nat)
    (hs : pubkeyFromStr source = some ps) (hdst : pubkeyFromStr destination = some pd)
    (how : pubkeyFromStr owner = some po) (ha : amount < 2 ^ 64) :
    TokenInstructions.transfer source destination owner amount = .ok
      { program_id := tokenProgramKey
        accounts := [⟨ps, false, true⟩, ⟨pd, false, true⟩, ⟨po, true, false⟩]
        data := 3 :: leBytes 8 amount } ∧
    (3 :: leBytes 8 amount).length = 9 ∧
    (3 :: leBytes 8 amount).head? = some 3 ∧
    fromLeBytes (leBytes 8 amount) = amount := by
  have htok : pubkeyFromStr TOKEN_PROGRAM_ID = some tokenProgramKey := by decide
  refine ⟨?_, by simp [leBytes_length], rfl, ?_⟩
  · simp [TokenInstructions.transfer, InstructionBuilder.build, InstructionBuilder.new,
      InstructionBuilder.add_account, InstructionBuilder.set_data, parseAccountList,
      htok, hs, hdst, how]
  · exact fromLeBytes_leBytes 8 amount (by norm_num; exact ha)

/-- C6 witness: the shape at three copies of the system program id and
amount 5. -/
theorem c6_witness :
    pubkeyFromStr zeroKeyStr = some (List.replicate 32 0) ∧
    (5 : Nat) < 2 ^ 64 ∧
    (TokenInstructions.transfer zeroKeyStr zeroKeyStr zeroKeyStr 5 = .ok
      { program_id := tokenProgramKey
        accounts := [⟨List.replicate 32 0, false, true⟩, ⟨List.replicate 32 0, false, true⟩,
          ⟨List.replicate 32 0, true, false⟩]
        data := 3 :: leBytes 8 5 } ∧
    (3 :: leBytes 8 5).length = 9 ∧
    (3 :: leBytes 8 5).head? = some 3 ∧
    fromLeBytes (leBytes 8 5) = 5) :=
  ⟨by decide, by decide,
    c6_token_transfer_shape zeroKeyStr zeroKeyStr zeroKeyStr 5
      (List.replicate 32 0) (List.replicate 32 0) (List.replicate 32 0)
      (by decide) (by decide) (by decide) (by decide)⟩

/-- C7: for a parseable program id and seeds within the limits,
`create_program_address` returns the rendered candidate exactly when the
candidate is off-curve, and an `InvalidInput` error (no panic) when the
candidate is on-curve. -/
theorem c7_create_program_address_curve_check (sha : List Nat → List Nat)
    (isOnCurve : List Nat → Bool) (seeds : List (List Nat)) (programId : String)
    (pk : List Nat) (hp : pubkeyFromStr programId = some pk)
    (h1 : seeds.length ≤ 16) (h2 : ∀ s ∈ seeds, s.length ≤ 32) :
    create_program_address sha isOnCurve seeds programId =
      (if isOnCurve (sha (seeds.flatten ++ pk ++ pdaMarker))
       then .error (.invalidInput "Failed to create program address")
       else .ok (base58Encode (sha (seeds.flatten ++ pk ++ pdaMarker)))) := by
  have hany : ¬ (seeds.any (fun s => s.length > 32) = true) := by
    simp only [List.any_eq_true, decide_eq_true_eq, not_exists]
    intro s
    simp only [not_and]
    intro hsmem
    have := h2 s hsmem
    omega
  have hcore : createProgramAddressCore sha isOnCurve seeds pk =
      (if isOnCurve (sha (seeds.flatten ++ pk ++ pdaMarker))
       then .error .invalidSeeds
       else .ok (sha (seeds.flatten ++ pk ++ pdaMarker))) := by
    unfold createProgramAddressCore
    rw [if_neg (by omega), if_neg hany]
  simp only [create_program_address, hp]
  rw [hcore]
  by_cases hc : isOnCurve (sha (seeds.flatten ++ pk ++ pdaMarker)) = true
  · rw [if_pos hc, if_pos hc]
  · rw [if_neg hc, if_neg hc]

/-- C7 witness: seeds `[[1, 2]]` against the system program id, with constant
oracles (candidate off-curve, so the address is returned). -/
theorem c7_witness :
    pubkeyFromStr zeroKeyStr = some (List.replicate 32 0) ∧
    ([[1, 2]] : List (List Nat)).length ≤ 16 ∧
    create_program_address (fun _ => List.replicate 32 0) (fun _ => false)
      [[1, 2]] zeroKeyStr =
      (if (fun _ => false : List Nat → Bool)
            ((fun _ => List.replicate 32 0 : List Nat → List Nat)
              (([[1, 2]] : List (List Nat)).flatten ++ List.replicate 32 0 ++ pdaMarker))
       then .error (.invalidInput "Failed to create program address")
       else .ok (base58Encode ((fun _ => List.replicate 32 0 : List Nat → List Nat)
              (([[1, 2]] : List (List Nat)).flatten ++ List.replicate 32 0 ++ pdaMarker)))) :=
  ⟨by decide, by decide,
    c7_create_program_address_curve_check (fun _ => List.replicate 32 0) (fun _ => false)
      [[1, 2]] zeroKeyStr (List.replicate 32 0) (by decide) (by decide)
      (by decide)⟩

/-- C9 counterexample: under the derivation oracle sending every secret to
the all-zero key, `Account::from_private_key` accepts the inconsistent
buffer `0^32 ‖ 1^32` (the public half is a valid point for the constant-true
point oracle) and stores the buffer's public half, all ones — not the
all-zero key derived from the stored secret. -/
theorem c9_counterexample :
    (Account.from_private_key (fun _ => true)
        (List.replicate 32 0 ++ List.replicate 32 1)).map (fun a => a.pubkey) =
      .ok (some (List.replicate 32 1)) ∧
    (fun _ => List.replicate 32 0 : List Nat → List Nat)
        ((List.replicate 32 0 ++ List.replicate 32 1).take 32) ≠ List.replicate 32 1 :=
  ⟨by decide, by decide⟩

/-- C9 amended: `generate` does establish the invariant (its stored address
is the key derived from the fresh secret); `from_private_key` only checks
well-formedness and stores the buffer's public half as the address — which
equals the secret's derived key just when the caller's buffer is internally
consistent; `get_pubkey` renders whatever was stored. -/
theorem c9_stored_address_is_buffer_half (edDerive : List Nat → List Nat)
    (pointValid : List Nat → Bool) (secret privateKey : List Nat) (acc : Account)
    (h : Account.from_private_key pointValid privateKey = .ok acc) :
    (Account.generate edDerive secret).pubkey = some (edDerive secret) ∧
    (Account.generate edDerive secret).get_pubkey = .ok (base58Encode (edDerive secret)) ∧
    acc.pubkey = some (privateKey.drop 32) ∧
    acc.keypair = some ⟨privateKey.take 32, privateKey.drop 32⟩ ∧
    acc.get_pubkey = .ok (base58Encode (privateKey.drop 32)) := by
  refine ⟨rfl, rfl, ?_⟩
  unfold Account.from_private_key keypairFromBytes at h
  by_cases hl : privateKey.length = 64
  · rw [if_pos hl] at h
    by_cases hv : pointValid (privateKey.drop 32) = true
    · rw [if_pos hv] at h
      simp only [Except.ok.injEq] at h
      subst h
      exact ⟨rfl, rfl, rfl⟩
    · rw [if_neg hv] at h
      simp at h
  · rw [if_neg hl] at h
    simp at h

/-- C9 witness: the amended statement at the consistent all-zero buffer. -/
theorem c9_witness :
    Account.from_private_key (fun _ => true) (List.replicate 64 0) = .ok zeroAccount ∧
    ((Account.generate (fun _ => List.replicate 32 0) (List.replicate 32 0)).pubkey =
        some ((fun _ => List.replicate 32 0 : List Nat → List Nat) (List.replicate 32 0)) ∧
      (Account.generate (fun _ => List.replicate 32 0) (List.replicate 32 0)).get_pubkey =
        .ok (base58Encode ((fun _ => List.replicate 32 0 : List Nat → List Nat)
          (List.replicate 32 0))) ∧
      zeroAccount.pubkey = some ((List.replicate 64 0).drop 32) ∧
      zeroAccount.keypair = some ⟨(List.replicate 64 0).take 32, (List.replicate 64 0).drop 32⟩ ∧
      zeroAccount.get_pubkey = .ok (base58Encode ((List.replicate 64 0).drop 32))) :=
  ⟨by decide,
    c9_stored_address_is_buffer_half (fun _ => List.replicate 32 0) (fun _ => true)
      (List.replicate 32 0) (List.replicate 64 0) zeroAccount (by decide)⟩
